import Mathlib

/-!
Verification development for the SQL-Connection-Module repository.

The embedding models the connector abstraction, the factory dispatch and the
parameter validation layer (`src/sql_connection/core/base_connector.py`,
`core/factory.py`, `core/utils.py`, and the engine adapters), treating the
native database drivers as opaque capability providers: each driver operation
(`connect`, `cursor`, `execute`, `fetchone`, `fetchall`, `commit`, `close`)
may either succeed or raise, and a handle object carries a Python truthiness
bit, exactly as the repository itself treats them.

Python exceptions are modelled with `Except PyErr`; `try/except/finally`
blocks are translated into explicit matches on the fallible step, and the
Python truthiness protocol (`if self.conn:`, `bool(x)`, `not (user and
password)`) is modelled by `pyTruthy`.
-/

namespace SqlConn

/-- Python exception values, tagged by the exception class the code raises or
the driver surfaces; `nativeError` stands for an arbitrary driver-raised
exception. All of them are caught by a Python `except Exception` handler. -/
inductive PyErr where
  | keyError (msg : String)
  | valueError (msg : String)
  | typeError (msg : String)
  | runtimeError (msg : String)
  | attributeError (msg : String)
  | nativeError (code : Nat)
deriving DecidableEq, Repr

/-- A Python value as it appears in the factory's keyword-argument bag:
a string, an integer, a boolean, or None. -/
inductive Val where
  | vstr (s : String)
  | vint (n : Int)
  | vbool (b : Bool)
  | vnone
deriving DecidableEq, Repr

/-- Python truthiness (`bool(v)`): None and empty strings are falsy, integers
are truthy iff nonzero. -/
def pyTruthy : Val → Bool
  | .vstr s => s ≠ ""
  | .vint n => n ≠ 0
  | .vbool b => b
  | .vnone => false

/-- Python `int(v)`: identity on ints, 0/1 on bools, base-10 parse on strings
(ValueError on failure), TypeError on None. -/
def pyInt : Val → Except PyErr Int
  | .vint n => .ok n
  | .vbool b => .ok (if b then 1 else 0)
  | .vstr s =>
    match s.toInt? with
    | some n => .ok n
    | none => .error (.valueError ("invalid literal for int() with base 10: " ++ s))
  | .vnone => .error (.typeError ("int() argument must be a string or a number, not NoneType"))

/-- The keyword-argument bag passed to the factory (`**kwargs`). -/
abbrev Bag : Type := List (String × Val)

/-- `n in kwargs`. -/
def Bag.contains (kwargs : Bag) (n : String) : Bool :=
  (List.any kwargs fun p => p.fst = n)

/-- `kwargs[n]` when present. -/
def Bag.find (kwargs : Bag) (n : String) : Option Val :=
  (List.find? (fun p => p.fst = n) kwargs).map Prod.snd

/-- `kwargs.get(n, d)`. -/
def Bag.get (kwargs : Bag) (n : String) (d : Val) : Val :=
  (Bag.find kwargs n).getD d

/-- Python `", ".join(l)`. -/
def joinComma : List String → String
  | [] => ""
  | [x] => x
  | x :: y :: rest => x ++ ", " ++ joinComma (y :: rest)

/-- `_need` from `core/factory.py`: extracts the required arguments in order,
raising a KeyError that names exactly the absent names when any is missing
(the source raises from inside the comprehension and recomputes the missing
names in the handler; the observable result is the same). -/
def _need (kwargs : Bag) (names : List String) : Except PyErr (List Val) :=
  if (List.all names fun n => Bag.contains kwargs n) then
    .ok (List.map (fun n => Bag.get kwargs n .vnone) names)
  else
    .error (.keyError ("Faltan argumentos requeridos: " ++
      joinComma (List.filter (fun n => !(Bag.contains kwargs n)) names)))

/-- ASCII lowering of one character, as Python `str.lower()` acts on the
ASCII range (engine tags are ASCII). -/
def pyLowerChar (c : Char) : Char :=
  if 'A' ≤ c ∧ c ≤ 'Z' then Char.ofNat (c.toNat + 32) else c

/-- `engine.lower()` (Python `str.lower()`, character by character). -/
def pyLower (s : String) : String :=
  String.mk (List.map pyLowerChar s.data)

/-- A constructed adapter instance, one variant per engine class, carrying the
constructor arguments the factory passes (`core/factory.py`). For SQL Server,
`user`/`password` are `Val.vnone` in the trusted branch (the constructor
defaults). -/
inductive Adapter where
  | sqlite (path : Val) (timeout : Int)
  | postgres (host : Val) (port : Int) (dbname : Val) (user : Val) (password : Val)
      (sslmode : Val)
  | mysql (host : Val) (port : Int) (db : Val) (user : Val) (password : Val)
  | sqlserver (server : Val) (database : Val) (user : Val) (password : Val)
      (driver : Val) (trusted : Bool)
  | oracle (host : Val) (port : Int) (serviceName : Val) (user : Val) (password : Val)
  | snowflake (account : Val) (user : Val) (password : Val) (warehouse : Val)
      (database : Val) (schema : Val) (role : Val)
  | redshift (host : Val) (port : Int) (dbname : Val) (user : Val) (password : Val)
      (sslmode : Val)
deriving DecidableEq, Repr

/-- The body of `get_connector` after `e = engine.lower()`: `engineOrig` is the
original tag (used only in the unsupported-engine message), `e` the lowered
tag. Branch order, `_need` lists, defaults and messages mirror
`core/factory.py` line by line. -/
def dispatch (engineOrig : String) (e : String) (kwargs : Bag) : Except PyErr Adapter :=
  if e = "sqlite" then
    match _need kwargs ["path"] with
    | .error err => .error err
    | .ok vals =>
      match pyInt (Bag.get kwargs "timeout" (.vint 5)) with
      | .error err => .error err
      | .ok timeout => .ok (.sqlite (vals.getD 0 .vnone) timeout)
  else if e = "postgres" then
    match _need kwargs ["host", "dbname", "user", "password"] with
    | .error err => .error err
    | .ok vals =>
      match pyInt (Bag.get kwargs "port" (.vint 5432)) with
      | .error err => .error err
      | .ok port =>
        .ok (.postgres (vals.getD 0 .vnone) port (vals.getD 1 .vnone)
          (vals.getD 2 .vnone) (vals.getD 3 .vnone) (Bag.get kwargs "sslmode" .vnone))
  else if e = "mysql" then
    match _need kwargs ["host", "db", "user", "password"] with
    | .error err => .error err
    | .ok vals =>
      match pyInt (Bag.get kwargs "port" (.vint 3306)) with
      | .error err => .error err
      | .ok port =>
        .ok (.mysql (vals.getD 0 .vnone) port (vals.getD 1 .vnone)
          (vals.getD 2 .vnone) (vals.getD 3 .vnone))
  else if e = "sqlserver" then
    match _need kwargs ["server", "database"] with
    | .error err => .error err
    | .ok vals =>
      if pyTruthy (Bag.get kwargs "trusted_connection" (.vbool false)) then
        .ok (.sqlserver (vals.getD 0 .vnone) (vals.getD 1 .vnone) .vnone .vnone
          (Bag.get kwargs "driver" (.vstr "ODBC Driver 17 for SQL Server")) true)
      else
        if !(pyTruthy (Bag.get kwargs "user" .vnone) &&
             pyTruthy (Bag.get kwargs "password" .vnone)) then
          .error (.keyError "Para SQL Server sin 'trusted_connection' se requieren 'user' y 'password'.")
        else
          .ok (.sqlserver (vals.getD 0 .vnone) (vals.getD 1 .vnone)
            (Bag.get kwargs "user" .vnone) (Bag.get kwargs "password" .vnone)
            (Bag.get kwargs "driver" (.vstr "ODBC Driver 17 for SQL Server")) false)
  else if e = "oracle" then
    match _need kwargs ["host", "service_name", "user", "password"] with
    | .error err => .error err
    | .ok vals =>
      match pyInt (Bag.get kwargs "port" (.vint 1521)) with
      | .error err => .error err
      | .ok port =>
        .ok (.oracle (vals.getD 0 .vnone) port (vals.getD 1 .vnone)
          (vals.getD 2 .vnone) (vals.getD 3 .vnone))
  else if e = "snowflake" then
    match _need kwargs ["account", "user", "password", "warehouse", "database", "schema"] with
    | .error err => .error err
    | .ok vals =>
      .ok (.snowflake (vals.getD 0 .vnone) (vals.getD 1 .vnone) (vals.getD 2 .vnone)
        (vals.getD 3 .vnone) (vals.getD 4 .vnone) (vals.getD 5 .vnone)
        (Bag.get kwargs "role" .vnone))
  else if e = "redshift" then
    match _need kwargs ["host", "dbname", "user", "password"] with
    | .error err => .error err
    | .ok vals =>
      match pyInt (Bag.get kwargs "port" (.vint 5439)) with
      | .error err => .error err
      | .ok port =>
        .ok (.redshift (vals.getD 0 .vnone) port (vals.getD 1 .vnone)
          (vals.getD 2 .vnone) (vals.getD 3 .vnone)
          (Bag.get kwargs "sslmode" (.vstr "require")))
  else
    .error (.valueError ("Motor no soportado: " ++ engineOrig))

/-- `get_connector` from `core/factory.py`: lowers the tag and dispatches. -/
def get_connector (engine : String) (kwargs : Bag) : Except PyErr Adapter :=
  dispatch engine (pyLower engine) kwargs

/-- The seven engine tags `get_connector` recognises. -/
def knownEngines : List String :=
  ["sqlite", "postgres", "mysql", "sqlserver", "oracle", "snowflake", "redshift"]

/-- The fixed required-parameter names each engine branch passes to `_need`. -/
def requiredParams : String → List String
  | "sqlite" => ["path"]
  | "postgres" => ["host", "dbname", "user", "password"]
  | "mysql" => ["host", "db", "user", "password"]
  | "sqlserver" => ["server", "database"]
  | "oracle" => ["host", "service_name", "user", "password"]
  | "snowflake" => ["account", "user", "password", "warehouse", "database", "schema"]
  | "redshift" => ["host", "dbname", "user", "password"]
  | _ => []

/-- The character-list body of `mask_secret` (`core/utils.py`): the empty
secret gives the empty string, a secret of length at most 2 gives that many
mask characters (`"*" * len(s)`), otherwise the first character, four mask
characters, and the last character (`s[0] + "****" + s[-1]`). -/
def maskChars : List Char → List Char
  | [] => []
  | c :: rest =>
    if rest.length + 1 ≤ 2 then List.replicate (rest.length + 1) '*'
    else c :: '*' :: '*' :: '*' :: '*' :: [(c :: rest).getLastD '*']

/-- `mask_secret` from `core/utils.py` (None behaves as the empty secret:
`if not s: return ""`). -/
def mask_secret : Option String → String
  | none => ""
  | some s => String.mk (maskChars s.data)

/-- Whether `hay` starts with `needle` (character lists). -/
def listStarts : List Char → List Char → Bool
  | _, [] => true
  | [], _ :: _ => false
  | a :: hs, b :: ns => a == b && listStarts hs ns

/-- Whether `needle` occurs contiguously inside `hay` (character lists),
i.e. Python `needle in hay` on strings. -/
def listOccurs : List Char → List Char → Bool
  | [], ns => listStarts [] ns
  | a :: hs, ns => listStarts (a :: hs) ns || listOccurs hs ns

/-- Python substring test `needle in hay`. -/
def strOccurs (needle hay : String) : Bool :=
  listOccurs hay.data needle.data

/-- Python truthiness of an optional string field (`if self.sslmode`). -/
def optStrTruthy : Option String → Bool
  | none => false
  | some s => s ≠ ""

/-- The constructor fields of `PostgresConnector`
(`engines/postgres_connector.py`). -/
structure PostgresConnector where
  host : String
  port : Int
  dbname : String
  user : String
  password : String
  sslmode : Option String
deriving DecidableEq, Repr

/-- `PostgresConnector.dsn_summary`: the f-string
`postgresql://{user}:{mask_secret(password)}@{host}:{port}/{dbname}{ssl}`
with `ssl = "?sslmode=..." if self.sslmode else ""`. -/
def PostgresConnector.dsn_summary (c : PostgresConnector) : String :=
  "postgresql://" ++ c.user ++ ":" ++ mask_secret (some c.password) ++ "@" ++
    c.host ++ ":" ++ toString c.port ++ "/" ++ c.dbname ++
    (if optStrTruthy c.sslmode then "?sslmode=" ++ (c.sslmode.getD "") else "")

/-- The constructor fields of `SnowflakeConnector`
(`engines/snowflake_connector.py`). -/
structure SnowflakeConnector where
  account : String
  user : String
  password : String
  warehouse : String
  database : String
  schema : String
  role : Option String
deriving DecidableEq, Repr

/-- `SnowflakeConnector.dsn_summary`: the f-string
`snowflake://{user}:{mask_secret(password)}@{account}/{database}/{schema}{qs}`
with `qs = "?warehouse=..."` plus `"&role=..."` when the role is truthy. -/
def SnowflakeConnector.dsn_summary (c : SnowflakeConnector) : String :=
  "snowflake://" ++ c.user ++ ":" ++ mask_secret (some c.password) ++ "@" ++
    c.account ++ "/" ++ c.database ++ "/" ++ c.schema ++
    ("?warehouse=" ++ c.warehouse ++
      (if optStrTruthy c.role then "&role=" ++ (c.role.getD "") else ""))

/-- A native driver cursor, treated as an opaque capability provider: each
operation either succeeds or raises a driver exception, and `fetchall`
returns an opaque row payload. -/
structure Cursor where
  execFails : Bool
  fetchFails : Bool
  closeFails : Bool
  rows : List Int
deriving DecidableEq, Repr

/-- A native driver connection handle, opaque apart from its Python
truthiness (`falsy`) and whether each driver call raises. -/
structure Handle where
  falsy : Bool
  closeFails : Bool
  cursorFails : Bool
  commitFails : Bool
  cur : Cursor
deriving DecidableEq, Repr

/-- `conn.close()` on the native handle. -/
def Handle.closeOp (h : Handle) : Except PyErr Unit :=
  if h.closeFails then .error (.nativeError 0) else .ok ()

/-- `conn.cursor()` on the native handle. -/
def Handle.cursorOp (h : Handle) : Except PyErr Cursor :=
  if h.cursorFails then .error (.nativeError 1) else .ok h.cur

/-- `conn.commit()` on the native handle. -/
def Handle.commitOp (h : Handle) : Except PyErr Unit :=
  if h.commitFails then .error (.nativeError 2) else .ok ()

/-- `cur.execute(sql, params)`. -/
def Cursor.executeOp (cur : Cursor) (_sql : String) : Except PyErr Unit :=
  if cur.execFails then .error (.nativeError 3) else .ok ()

/-- `cur.fetchone()`. -/
def Cursor.fetchoneOp (cur : Cursor) : Except PyErr (Option Int) :=
  if cur.fetchFails then .error (.nativeError 4) else .ok cur.rows.head?

/-- `cur.fetchall()`. -/
def Cursor.fetchallOp (cur : Cursor) : Except PyErr (List Int) :=
  if cur.fetchFails then .error (.nativeError 4) else .ok cur.rows

/-- `cur.close()`. -/
def Cursor.closeOp (cur : Cursor) : Except PyErr Unit :=
  if cur.closeFails then .error (.nativeError 5) else .ok ()

/-- The connector's `self.conn` field: `none` is Python None. -/
abbrev Conn : Type := Option Handle

/-- Python truthiness of `self.conn` (`if self.conn:`): None is falsy, a held
handle is as truthy as the object itself. -/
def connTruthy : Conn → Bool
  | none => false
  | some h => !h.falsy

/-- `DatabaseConnector.close` (`base_connector.py`): `if self.conn:` then
`try: self.conn.close() finally: self.conn = None`. The result is the new
`self.conn` paired with the exception that propagates, if any — the
`finally` clause nulls the handle, but there is no `except`, so a driver
exception from the native close escapes. -/
def close (conn : Conn) : Conn × Option PyErr :=
  match conn with
  | none => (none, none)
  | some h =>
    if h.falsy then (some h, none)
    else
      match h.closeOp with
      | .ok _ => (none, none)
      | .error e => (none, some e)

/-- `DatabaseConnector.is_connected`: `self.conn is not None`. -/
def is_connected (conn : Conn) : Bool :=
  match conn with
  | none => false
  | some _ => true

/-- `DatabaseConnector._ensure_connected`: `if not self.conn: raise
RuntimeError(...)` — a truthiness test, not an `is not None` test. -/
def ensure_connected (conn : Conn) : Except PyErr Unit :=
  if connTruthy conn then .ok ()
  else .error (.runtimeError "No active connection. Call `connect()` first.")

/-- The body of `DatabaseConnector.ping` inside its outer `try`: ensure
connected, open a cursor, execute `SELECT 1`, fetch one row, return True.
The inner `finally` closes the cursor inside `try/except pass`, so a cursor
close failure is invisible. -/
def pingBody (conn : Conn) : Except PyErr Bool :=
  match ensure_connected conn with
  | .error e => .error e
  | .ok _ =>
    match conn with
    | none => .error (.attributeError "NoneType object has no attribute cursor")
    | some h =>
      match h.cursorOp with
      | .error e => .error e
      | .ok cur =>
        match cur.executeOp "SELECT 1" with
        | .error e => .error e
        | .ok _ =>
          match cur.fetchoneOp with
          | .error e => .error e
          | .ok _ => .ok true

/-- `DatabaseConnector.ping`: the body above wrapped in
`try ... except Exception: return False`. -/
def ping (conn : Conn) : Except PyErr Bool :=
  match pingBody conn with
  | .ok b => .ok b
  | .error _ => .ok false

/-- The body of `OracleConnector.ping` inside its `try`
(`engines/oracle_connector.py`): it calls `self.conn.cursor()` directly
(AttributeError when the handle is None), runs `SELECT 1 FROM DUAL`, fetches,
and closes the cursor inside the same `try`, so a cursor close failure also
lands in the handler. -/
def oraclePingBody (conn : Conn) : Except PyErr Bool :=
  match conn with
  | none => .error (.attributeError "NoneType object has no attribute cursor")
  | some h =>
    match h.cursorOp with
    | .error e => .error e
    | .ok cur =>
      match cur.executeOp "SELECT 1 FROM DUAL" with
      | .error e => .error e
      | .ok _ =>
        match cur.fetchoneOp with
        | .error e => .error e
        | .ok _ =>
          match cur.closeOp with
          | .error e => .error e
          | .ok _ => .ok true

/-- `OracleConnector.ping`: the body wrapped in
`try ... except Exception: return False`. -/
def oraclePing (conn : Conn) : Except PyErr Bool :=
  match oraclePingBody conn with
  | .ok b => .ok b
  | .error _ => .ok false

/-- `DatabaseConnector.execute`: ensure connected, open a cursor, run the
statement, then `try: self.conn.commit() except Exception: pass`; the
`finally` closes the cursor inside `try/except pass`. Commit and
cursor-close failures are swallowed; ensure/cursor/execute failures
propagate. -/
def execute (conn : Conn) (sql : String) : Except PyErr Unit :=
  match ensure_connected conn with
  | .error e => .error e
  | .ok _ =>
    match conn with
    | none => .error (.attributeError "NoneType object has no attribute cursor")
    | some h =>
      match h.cursorOp with
      | .error e => .error e
      | .ok cur =>
        match cur.executeOp sql with
        | .error e => .error e
        | .ok _ =>
          match h.commitOp with
          | .ok _ => .ok ()
          | .error _ => .ok ()

/-- `DatabaseConnector.query`: ensure connected, open a cursor, run the
statement, fetch all rows; the `finally` closes the cursor inside
`try/except pass`. -/
def query (conn : Conn) (sql : String) : Except PyErr (List Int) :=
  match ensure_connected conn with
  | .error e => .error e
  | .ok _ =>
    match conn with
    | none => .error (.attributeError "NoneType object has no attribute cursor")
    | some h =>
      match h.cursorOp with
      | .error e => .error e
      | .ok cur =>
        match cur.executeOp sql with
        | .error e => .error e
        | .ok _ =>
          match cur.fetchallOp with
          | .error e => .error e
          | .ok rows => .ok rows

/-- The `with connector:` statement built from `__enter__`/`__exit__`
(`base_connector.py`): `__enter__` calls `connect()` (modelled by its
outcome `connectRes`; on failure `self.conn` keeps its prior value and the
error propagates with the body never run), the body runs on the connected
instance, and `__exit__` calls `close()` and returns False. Returning False
re-raises the body's exception — unless `close()` itself raises, in which
case that exception propagates instead. The result pairs what the caller
sees with the final `self.conn`. -/
def withConnector {α : Type} (conn0 : Conn) (connectRes : Except PyErr Handle)
    (body : Conn → Except PyErr α) : Except PyErr α × Conn :=
  match connectRes with
  | .error e => (.error e, conn0)
  | .ok h =>
    let bodyRes := body (some h)
    let cl := close (some h)
    match cl.snd with
    | some e => (.error e, cl.fst)
    | none => (bodyRes, cl.fst)

/-! Concrete fixtures used by counterexamples and witnesses. -/

/-- A cursor on which every operation succeeds. -/
def curOK : Cursor :=
  { execFails := false, fetchFails := false, closeFails := false, rows := [] }

/-- A truthy handle on which every driver call succeeds. -/
def hGood : Handle :=
  { falsy := false, closeFails := false, cursorFails := false, commitFails := false,
    cur := curOK }

/-- A non-null handle whose Python truthiness is false. -/
def hFalsy : Handle := { hGood with falsy := true }

/-- A truthy handle whose native `close()` raises. -/
def hCloseBad : Handle := { hGood with closeFails := true }

/-- A truthy handle whose `cursor()` call raises. -/
def hCursorBad : Handle := { hGood with cursorFails := true }

/-- A truthy handle whose `commit()` call raises (an autocommit-style driver). -/
def hCommitBad : Handle := { hGood with commitFails := true }

/-- A scope body that raises a RuntimeError. -/
def bodyBoom : Conn → Except PyErr Unit := fun _ => .error (.runtimeError "boom")

/-- A Postgres adapter whose password is the mask character itself. -/
def pg0 : PostgresConnector :=
  { host := "h", port := 5432, dbname := "d", user := "u", password := "*",
    sslmode := none }

deriving instance DecidableEq for Except

/-! Helper lemmas. -/

theorem toNat_ofNat_small (n : Nat) (h : n < 128) : (Char.ofNat n).toNat = n := by
  unfold Char.ofNat
  split
  · rfl
  · rename_i hv
    exact absurd (Or.inl (by omega)) hv

theorem pyLowerChar_idem (c : Char) : pyLowerChar (pyLowerChar c) = pyLowerChar c := by
  unfold pyLowerChar
  split
  · rename_i h
    obtain ⟨h1, h2⟩ := h
    rw [Char.le_def] at h1 h2
    have hn : c.toNat + 32 < 128 := by
      have hz : c.toNat ≤ 90 := h2
      omega
    have ht : (Char.ofNat (c.toNat + 32)).toNat = c.toNat + 32 := toNat_ofNat_small _ hn
    split
    · rename_i h'
      obtain ⟨h1', h2'⟩ := h'
      rw [Char.le_def] at h2'
      exfalso
      have h65 : 65 ≤ c.toNat := h1
      have hv : (Char.ofNat (c.toNat + 32)).toNat ≤ 90 := h2'
      omega
    · rfl
  · rfl

theorem pyLower_idem (s : String) : pyLower (pyLower s) = pyLower s := by
  unfold pyLower
  have key : ∀ l : List Char,
      List.map pyLowerChar (List.map pyLowerChar l) = List.map pyLowerChar l := by
    intro l
    induction l with
    | nil => rfl
    | cons a t ih => simp [pyLowerChar_idem, ih]
  exact congrArg String.mk (key s.data)

theorem need_missing (kwargs : Bag) (names : List String)
    (h : List.filter (fun n => !(Bag.contains kwargs n)) names ≠ []) :
    _need kwargs names = .error (.keyError ("Faltan argumentos requeridos: " ++
      joinComma (List.filter (fun n => !(Bag.contains kwargs n)) names))) := by
  unfold _need
  cases hall : (List.all names fun n => Bag.contains kwargs n) with
  | false => rfl
  | true =>
    exfalso
    apply h
    rw [List.filter_eq_nil_iff]
    intro a ha
    rw [List.all_eq_true] at hall
    simp [hall a ha]

theorem need_ok (kwargs : Bag) (names : List String)
    (h : ∀ n ∈ names, Bag.contains kwargs n = true) :
    _need kwargs names = .ok (List.map (fun n => Bag.get kwargs n .vnone) names) := by
  unfold _need
  have hall : (List.all names fun n => Bag.contains kwargs n) = true := by
    rw [List.all_eq_true]
    exact h
  rw [hall]
  rfl

/-- An all-mask string never contains a needle whose head is not a mask
character. -/
theorem occurs_star_hay (hay : List Char) (c : Char) (ns : List Char)
    (hstar : ∀ x ∈ hay, x = '*') (hc : c ≠ '*') :
    listOccurs hay (c :: ns) = false := by
  induction hay with
  | nil => rfl
  | cons a hs ih =>
    have ha : a = '*' := hstar a (List.mem_cons_self a hs)
    have hne : (a == c) = false := by
      simp [ha]
      intro h
      exact hc h.symm
    simp [listOccurs, listStarts, hne]
    exact ih (fun x hx => hstar x (List.mem_cons_of_mem a hx))

/-- The six-character mask never contains a needle whose first two characters
are not mask characters. -/
theorem occurs_long_mask (c d l : Char) (ns : List Char)
    (hc : c ≠ '*') (hd : d ≠ '*') :
    listOccurs [c, '*', '*', '*', '*', l] (c :: d :: ns) = false := by
  have hsd : ('*' == d) = false := by
    simp
    intro h
    exact hd h.symm
  have hsc : ('*' == c) = false := by
    simp
    intro h
    exact hc h.symm
  simp [listOccurs, listStarts, hsd, hsc]

/-- The masked form of a nonempty secret that holds no mask character never
contains the secret. -/
theorem maskChars_safe (l : List Char) (hne : l ≠ []) (hstar : '*' ∉ l) :
    listOccurs (maskChars l) l = false := by
  cases l with
  | nil => exact absurd rfl hne
  | cons c rest =>
    have hc : c ≠ '*' := by
      intro h
      exact hstar (by rw [← h]; exact List.mem_cons_self _ _)
    unfold maskChars
    by_cases hlen : rest.length + 1 ≤ 2
    · simp only [hlen, if_true]
      exact occurs_star_hay _ _ _ (fun x hx => List.eq_of_mem_replicate hx) hc
    · cases rest with
      | nil => simp at hlen
      | cons d rest2 =>
        have hd : d ≠ '*' := by
          intro h
          apply hstar
          rw [h]
          exact List.mem_cons_of_mem _ (List.mem_cons_self _ _)
        simp only [hlen, if_false]
        exact occurs_long_mask c d _ rest2 hc hd

theorem mask_secret_safe (p : String) (hne : p.data ≠ []) (hstar : '*' ∉ p.data) :
    strOccurs p (mask_secret (some p)) = false :=
  maskChars_safe p.data hne hstar

/-- The int-conversion ValueError message is never the unsupported-engine
message. -/
theorem intMsg_ne_unsupported (s t : String) :
    ("invalid literal for int() with base 10: " ++ s) ≠ ("Motor no soportado: " ++ t) := by
  intro h
  have hd := congrArg String.data h
  simp [String.data_append] at hd

/-! Claim C1. -/

/-- Claim C1, counterexample: on a truthy handle whose native close raises,
`close()` propagates the driver exception outward — the `try/finally` has no
`except` — so the claim that close never raises is false (the handle is still
nulled by the `finally`). -/
theorem C1_close_counterexample :
    close (some hCloseBad) = (none, some (PyErr.nativeError 0)) := by decide

/-- Claim C1 as amended: `close()` raises only when a truthy handle is held
and its native close raises (errors are not suppressed), and whenever a
truthy handle is held the instance is unconnected after the call, the
`finally` clause having nulled the handle even when the native close raised. -/
theorem C1_close_amended (conn : Conn) :
    ((close conn).snd = none ∨
      ∃ h, conn = some h ∧ h.falsy = false ∧ h.closeFails = true) ∧
    (connTruthy conn = true → (close conn).fst = none) := by
  cases conn with
  | none =>
    refine ⟨Or.inl rfl, ?_⟩
    intro ht
    simp [connTruthy] at ht
  | some h =>
    cases hf : h.falsy with
    | true =>
      refine ⟨Or.inl (by simp [close, hf]), ?_⟩
      intro ht
      simp [connTruthy, hf] at ht
    | false =>
      cases hcb : h.closeFails with
      | false =>
        refine ⟨Or.inl (by simp [close, hf, Handle.closeOp, hcb]), ?_⟩
        intro _
        simp [close, hf, Handle.closeOp, hcb]
      | true =>
        refine ⟨Or.inr ⟨h, rfl, hf, hcb⟩, ?_⟩
        intro _
        simp [close, hf, Handle.closeOp, hcb]

/-- Witness for C1's amended theorem at the failing handle: the handle is
truthy and after `close()` the instance holds no handle. -/
theorem C1_close_amended_witness :
    connTruthy (some hCloseBad) = true ∧ (close (some hCloseBad)).fst = none :=
  ⟨by decide, (C1_close_amended (some hCloseBad)).2 (by decide)⟩

/-! Claim C2. -/

/-- Claim C2, counterexample: on a non-null falsy handle the `if self.conn:`
guard skips the close body, the handle stays in place, and `is_connected`
(an `is not None` test) is still true after `close()` — so the claim that
every `close()` leaves `is_connected` false is violated at this state. -/
theorem C2_close_counterexample :
    is_connected (close (some hFalsy)).fst = true ∧
    (close (some hFalsy)).snd = none := by decide

/-- Claim C2 as amended: for every connector whose handle is null or truthy
(every state reachable through the DB-API drivers, whose connection objects
are truthy), `close()` leaves `is_connected` false, and a second `close()`
on the result is a no-op that raises nothing — double-close is safe. -/
theorem C2_close_idempotent (conn : Conn)
    (h : conn = none ∨ connTruthy conn = true) :
    is_connected (close conn).fst = false ∧ close (close conn).fst = (none, none) := by
  have hfst : (close conn).fst = none := by
    rcases h with h | h
    · rw [h]
      rfl
    · cases conn with
      | none => rfl
      | some hh =>
        have hf : hh.falsy = false := by simpa [connTruthy] using h
        cases hcb : hh.closeFails <;> simp [close, hf, Handle.closeOp, hcb]
  rw [hfst]
  exact ⟨rfl, rfl⟩

/-- Witness for C2's amended theorem on a connected good handle: after
`close()` the instance reports unconnected and a double close is safe. -/
theorem C2_close_idempotent_witness :
    is_connected (close (some hGood)).fst = false ∧
    close (close (some hGood)).fst = (none, none) :=
  C2_close_idempotent (some hGood) (Or.inr (by decide))

/-! Claim C10. -/

/-- Claim C10, confirmed: the connectedness checks disagree at the boundary.
For a non-null falsy handle, `is_connected` (an `is not None` test) is true,
yet `query`/`execute` raise the not-connected RuntimeError, `ping` returns
false, and `close()` (an `if self.conn:` truthiness guard) leaves the handle
in place, so `is_connected` is still true after `close()`. -/
theorem C10_truthiness_mismatch (h : Handle) (hf : h.falsy = true) (sql : String) :
    is_connected (some h) = true ∧
    query (some h) sql = .error (.runtimeError "No active connection. Call `connect()` first.") ∧
    execute (some h) sql = .error (.runtimeError "No active connection. Call `connect()` first.") ∧
    ping (some h) = .ok false ∧
    close (some h) = (some h, none) ∧
    is_connected (close (some h)).fst = true := by
  have ht : connTruthy (some h) = false := by simp [connTruthy, hf]
  have he : ensure_connected (some h) =
      .error (.runtimeError "No active connection. Call `connect()` first.") := by
    simp [ensure_connected, ht]
  have hcl : close (some h) = (some h, none) := by simp [close, hf]
  refine ⟨rfl, ?_, ?_, ?_, hcl, ?_⟩
  · unfold query
    rw [he]
  · unfold execute
    rw [he]
  · unfold ping pingBody
    rw [he]
  · rw [hcl]
    rfl

/-- Witness for C10 at a concrete falsy handle and the probe query. -/
theorem C10_truthiness_mismatch_witness :
    is_connected (some hFalsy) = true ∧
    query (some hFalsy) "SELECT 1" =
      .error (.runtimeError "No active connection. Call `connect()` first.") ∧
    ping (some hFalsy) = .ok false ∧
    is_connected (close (some hFalsy)).fst = true := by
  obtain ⟨h1, h2, _, h4, _, h6⟩ := C10_truthiness_mismatch hFalsy (by decide) "SELECT 1"
  exact ⟨h1, h2, h4, h6⟩

/-! Claim C3. -/

/-- Claim C3, confirmed: neither the base `ping` nor the Oracle override ever
raises (every exception is caught and turned into a False result); both
return false whenever the instance is not connected; both return false
whenever any step of the probe fails; and a True result certifies that every
probe step succeeded (for the base ping, also that the handle was truthy; for
Oracle, also that the cursor close inside the `try` succeeded). -/
theorem C3_ping_spec :
    (∀ conn : Conn, ∃ b, ping conn = .ok b) ∧
    (∀ conn : Conn, ∃ b, oraclePing conn = .ok b) ∧
    (∀ conn : Conn, is_connected conn = false →
      ping conn = .ok false ∧ oraclePing conn = .ok false) ∧
    (∀ h : Handle,
      h.cursorFails = true ∨ h.cur.execFails = true ∨ h.cur.fetchFails = true →
      ping (some h) = .ok false ∧ oraclePing (some h) = .ok false) ∧
    (∀ h : Handle, ping (some h) = .ok true →
      h.falsy = false ∧ h.cursorFails = false ∧ h.cur.execFails = false ∧
        h.cur.fetchFails = false) ∧
    (∀ h : Handle, oraclePing (some h) = .ok true →
      h.cursorFails = false ∧ h.cur.execFails = false ∧ h.cur.fetchFails = false ∧
        h.cur.closeFails = false) := by
  refine ⟨?_, ?_, ?_, ?_, ?_, ?_⟩
  · intro conn
    cases hp : pingBody conn with
    | ok b => exact ⟨b, by simp [ping, hp]⟩
    | error e => exact ⟨false, by simp [ping, hp]⟩
  · intro conn
    cases hp : oraclePingBody conn with
    | ok b => exact ⟨b, by simp [oraclePing, hp]⟩
    | error e => exact ⟨false, by simp [oraclePing, hp]⟩
  · intro conn hc
    cases conn with
    | none => exact ⟨by decide, by decide⟩
    | some h => simp [is_connected] at hc
  · intro h hfail
    obtain ⟨fa, cb, cub, cmb, ⟨ex, ft, ccl, rows⟩⟩ := h
    simp only at hfail
    cases fa <;> cases cub <;> cases ex <;> cases ft <;> cases ccl <;>
      simp_all [ping, pingBody, oraclePing, oraclePingBody, ensure_connected,
        connTruthy, Handle.cursorOp, Cursor.executeOp, Cursor.fetchoneOp,
        Cursor.closeOp]
  · intro h hp
    obtain ⟨fa, cb, cub, cmb, ⟨ex, ft, ccl, rows⟩⟩ := h
    cases fa <;> cases cub <;> cases ex <;> cases ft <;>
      simp_all [ping, pingBody, ensure_connected, connTruthy, Handle.cursorOp,
        Cursor.executeOp, Cursor.fetchoneOp]
  · intro h hp
    obtain ⟨fa, cb, cub, cmb, ⟨ex, ft, ccl, rows⟩⟩ := h
    cases cub <;> cases ex <;> cases ft <;> cases ccl <;>
      simp_all [oraclePing, oraclePingBody, Handle.cursorOp, Cursor.executeOp,
        Cursor.fetchoneOp, Cursor.closeOp]

/-- Witness for C3 on the never-connected state: `ping` returns false rather
than raising, in both variants. -/
theorem C3_ping_spec_witness :
    is_connected (none : Conn) = false ∧ ping (none : Conn) = .ok false ∧
    oraclePing (none : Conn) = .ok false := by
  have h := C3_ping_spec.2.2.1 none (by decide)
  exact ⟨by decide, h.1, h.2⟩

/-! Claim C8. -/

/-- Claim C8, counterexample: on a connected (truthy) handle whose `cursor()`
call raises, `execute` propagates that error although the execute step itself
did not fail — so "raises only when the execute step itself fails" is false
as stated. -/
theorem C8_execute_counterexample :
    connTruthy (some hCursorBad) = true ∧ is_connected (some hCursorBad) = true ∧
    hCursorBad.cur.execFails = false ∧
    execute (some hCursorBad) "CREATE TABLE t (x INTEGER)" =
      .error (.nativeError 1) := by decide

/-- Claim C8 as amended: on a connected handle, `execute` runs the statement
and then attempts a commit, swallowing any commit error (and any cursor-close
error), so the call succeeds whenever cursor acquisition and the execute step
succeed; and it raises only when the connectedness check, the cursor
acquisition or the execute step itself fails. -/
theorem C8_execute_amended :
    (∀ (h : Handle) (sql : String), h.falsy = false → h.cursorFails = false →
      h.cur.execFails = false → execute (some h) sql = .ok ()) ∧
    (∀ (h : Handle) (sql : String) (e : PyErr), execute (some h) sql = .error e →
      h.falsy = true ∨ h.cursorFails = true ∨ h.cur.execFails = true) := by
  constructor
  · intro h sql hfa hcub hex
    obtain ⟨fa, cb, cub, cmb, ⟨ex, ft, ccl, rows⟩⟩ := h
    simp only at hfa hcub hex
    subst hfa hcub hex
    cases cmb <;>
      simp [execute, ensure_connected, connTruthy, Handle.cursorOp,
        Cursor.executeOp, Handle.commitOp]
  · intro h sql e hp
    obtain ⟨fa, cb, cub, cmb, ⟨ex, ft, ccl, rows⟩⟩ := h
    cases fa <;> cases cub <;> cases ex <;> cases cmb <;>
      simp_all [execute, ensure_connected, connTruthy, Handle.cursorOp,
        Cursor.executeOp, Handle.commitOp]

/-- Witness for C8's amended theorem on a handle whose commit raises: the
commit error is swallowed and the call still succeeds. -/
theorem C8_execute_amended_witness :
    hCommitBad.commitFails = true ∧
    execute (some hCommitBad) "DELETE FROM t" = .ok () :=
  ⟨by decide,
    C8_execute_amended.1 hCommitBad "DELETE FROM t" (by decide) (by decide) (by decide)⟩

/-! Claim C9. -/

/-- Claim C9, counterexample: when the body of the scope raises and the
handle's native close also raises, the caller sees the close error, not the
in-scope error — `__exit__` calls `close()`, which can itself raise and
replace the body's exception — so "any error raised inside the scope still
propagates to the caller" is false as stated. -/
theorem C9_with_counterexample :
    bodyBoom (some hCloseBad) = .error (.runtimeError "boom") ∧
    withConnector (none : Conn) (.ok hCloseBad) bodyBoom =
      (.error (.nativeError 0), none) := by decide

/-- Claim C9 as amended: a failed `connect()` propagates with the body never
run; `close()` runs on scope exit regardless of how the scope exited (the
final handle state is always the one `close()` produces); and provided the
cleanup itself raises nothing (truthy handle, native close succeeds), an
in-scope error propagates to the caller after the cleanup has run, and a
normal result is returned after the cleanup likewise. -/
theorem C9_with_amended {α : Type} :
    (∀ (conn0 : Conn) (e : PyErr) (body : Conn → Except PyErr α),
      withConnector conn0 (.error e) body = (.error e, conn0)) ∧
    (∀ (conn0 : Conn) (h : Handle) (body : Conn → Except PyErr α),
      (withConnector conn0 (.ok h) body).snd = (close (some h)).fst) ∧
    (∀ (conn0 : Conn) (h : Handle) (body : Conn → Except PyErr α) (e : PyErr),
      h.falsy = false → h.closeFails = false → body (some h) = .error e →
      withConnector conn0 (.ok h) body = (.error e, none)) ∧
    (∀ (conn0 : Conn) (h : Handle) (body : Conn → Except PyErr α) (v : α),
      h.falsy = false → h.closeFails = false → body (some h) = .ok v →
      withConnector conn0 (.ok h) body = (.ok v, none)) := by
  refine ⟨fun conn0 e body => rfl, ?_, ?_, ?_⟩
  · intro conn0 h body
    simp only [withConnector]
    cases hs : (close (some h)).snd <;> simp [hs]
  · intro conn0 h body e hfa hcb hbody
    have hcl : close (some h) = (none, none) := by
      simp [close, hfa, Handle.closeOp, hcb]
    simp [withConnector, hcl, hbody]
  · intro conn0 h body v hfa hcb hbody
    have hcl : close (some h) = (none, none) := by
      simp [close, hfa, Handle.closeOp, hcb]
    simp [withConnector, hcl, hbody]

/-- Witness for C9's amended theorem: a body error propagates after a clean
close has nulled the handle. -/
theorem C9_with_amended_witness :
    hGood.falsy = false ∧ hGood.closeFails = false ∧
    bodyBoom (some hGood) = .error (.runtimeError "boom") ∧
    withConnector (none : Conn) (.ok hGood) bodyBoom =
      (.error (.runtimeError "boom"), none) :=
  ⟨by decide, by decide, by decide,
    C9_with_amended.2.2.1 none hGood bodyBoom (.runtimeError "boom")
      (by decide) (by decide) (by decide)⟩

/-! Claim C4. -/

/-- Claim C4, counterexample: when the secret is the mask character itself,
`mask_secret` returns the secret unchanged (`"*" * 1`), so the summary
`postgresql://u:*@h:5432/d` contains the literal secret string — the claim
that the returned string never contains the literal secret fails for secrets
made of mask characters. -/
theorem C4_dsn_counterexample :
    pg0.password = "*" ∧
    strOccurs pg0.password (PostgresConnector.dsn_summary pg0) = true := by decide

/-- Claim C4 as amended: the summaries depend on the password only through
its masked form — two passwords with equal masks give equal summaries, so the
literal password is never interpolated — and the masked form (first char +
mask + last char, or all-mask when length is at most 2) never contains the
secret, provided the secret is nonempty and holds no mask character. -/
theorem C4_dsn_amended :
    (∀ (c : PostgresConnector) (p : String),
      mask_secret (some p) = mask_secret (some c.password) →
      PostgresConnector.dsn_summary { c with password := p } =
        PostgresConnector.dsn_summary c) ∧
    (∀ (c : SnowflakeConnector) (p : String),
      mask_secret (some p) = mask_secret (some c.password) →
      SnowflakeConnector.dsn_summary { c with password := p } =
        SnowflakeConnector.dsn_summary c) ∧
    (∀ p : String, p.data ≠ [] → '*' ∉ p.data →
      strOccurs p (mask_secret (some p)) = false) := by
  refine ⟨?_, ?_, ?_⟩
  · intro c p h
    simp [PostgresConnector.dsn_summary, h]
  · intro c p h
    simp [SnowflakeConnector.dsn_summary, h]
  · exact mask_secret_safe

/-- Witness for C4's amended theorem at an ordinary secret: the masked form
does not contain it. -/
theorem C4_dsn_amended_witness :
    ("secret" : String).data ≠ [] ∧ '*' ∉ ("secret" : String).data ∧
    strOccurs "secret" (mask_secret (some "secret")) = false :=
  ⟨by decide, by decide, C4_dsn_amended.2.2 "secret" (by decide) (by decide)⟩

/-! Claim C5. -/

/-- Claim C5, confirmed: for every supported engine tag and every bag missing
some of that engine's required parameter names, the factory raises the
missing-required-arguments KeyError whose message lists exactly the absent
required names (in declaration order) and no others — the `_need` handler
recomputes precisely the names not in the bag. -/
theorem C5_missing_args (engine : String) (kwargs : Bag)
    (hknown : pyLower engine ∈ knownEngines)
    (hmiss : List.filter (fun n => !(Bag.contains kwargs n))
      (requiredParams (pyLower engine)) ≠ []) :
    get_connector engine kwargs = .error (.keyError ("Faltan argumentos requeridos: " ++
      joinComma (List.filter (fun n => !(Bag.contains kwargs n))
        (requiredParams (pyLower engine))))) := by
  unfold get_connector
  have hk : pyLower engine = "sqlite" ∨ pyLower engine = "postgres" ∨
      pyLower engine = "mysql" ∨ pyLower engine = "sqlserver" ∨
      pyLower engine = "oracle" ∨ pyLower engine = "snowflake" ∨
      pyLower engine = "redshift" := by simpa [knownEngines] using hknown
  rcases hk with h | h | h | h | h | h | h
  · rw [h] at hmiss ⊢
    have hneed := need_missing kwargs ["path"] hmiss
    unfold dispatch
    rw [if_pos (rfl : "sqlite" = "sqlite"), hneed]
    rfl
  · rw [h] at hmiss ⊢
    have hneed := need_missing kwargs ["host", "dbname", "user", "password"] hmiss
    unfold dispatch
    rw [if_neg (by decide : ¬("postgres" = "sqlite")),
      if_pos (rfl : "postgres" = "postgres"), hneed]
    rfl
  · rw [h] at hmiss ⊢
    have hneed := need_missing kwargs ["host", "db", "user", "password"] hmiss
    unfold dispatch
    rw [if_neg (by decide : ¬("mysql" = "sqlite")),
      if_neg (by decide : ¬("mysql" = "postgres")),
      if_pos (rfl : "mysql" = "mysql"), hneed]
    rfl
  · rw [h] at hmiss ⊢
    have hneed := need_missing kwargs ["server", "database"] hmiss
    unfold dispatch
    rw [if_neg (by decide : ¬("sqlserver" = "sqlite")),
      if_neg (by decide : ¬("sqlserver" = "postgres")),
      if_neg (by decide : ¬("sqlserver" = "mysql")),
      if_pos (rfl : "sqlserver" = "sqlserver"), hneed]
    rfl
  · rw [h] at hmiss ⊢
    have hneed := need_missing kwargs ["host", "service_name", "user", "password"] hmiss
    unfold dispatch
    rw [if_neg (by decide : ¬("oracle" = "sqlite")),
      if_neg (by decide : ¬("oracle" = "postgres")),
      if_neg (by decide : ¬("oracle" = "mysql")),
      if_neg (by decide : ¬("oracle" = "sqlserver")),
      if_pos (rfl : "oracle" = "oracle"), hneed]
    rfl
  · rw [h] at hmiss ⊢
    have hneed := need_missing kwargs
      ["account", "user", "password", "warehouse", "database", "schema"] hmiss
    unfold dispatch
    rw [if_neg (by decide : ¬("snowflake" = "sqlite")),
      if_neg (by decide : ¬("snowflake" = "postgres")),
      if_neg (by decide : ¬("snowflake" = "mysql")),
      if_neg (by decide : ¬("snowflake" = "sqlserver")),
      if_neg (by decide : ¬("snowflake" = "oracle")),
      if_pos (rfl : "snowflake" = "snowflake"), hneed]
    rfl
  · rw [h] at hmiss ⊢
    have hneed := need_missing kwargs ["host", "dbname", "user", "password"] hmiss
    unfold dispatch
    rw [if_neg (by decide : ¬("redshift" = "sqlite")),
      if_neg (by decide : ¬("redshift" = "postgres")),
      if_neg (by decide : ¬("redshift" = "mysql")),
      if_neg (by decide : ¬("redshift" = "sqlserver")),
      if_neg (by decide : ¬("redshift" = "oracle")),
      if_neg (by decide : ¬("redshift" = "snowflake")),
      if_pos (rfl : "redshift" = "redshift"), hneed]
    rfl

/-- Witness for C5 at the spec's scenario: postgres with only `host` present
is refused naming exactly `dbname, user, password`. -/
theorem C5_missing_args_witness :
    get_connector "postgres" [("host", Val.vstr "localhost")] =
      .error (.keyError "Faltan argumentos requeridos: dbname, user, password") := by
  have h := C5_missing_args "postgres" [("host", Val.vstr "localhost")]
    (by decide) (by decide)
  exact h.trans (by decide)


/-! Claim C6. -/

/-- Claim C6, confirmed: with `server` and `database` present, the factory
itself (before constructing any adapter — the error result replaces the
`.ok adapter` outcome) raises the configuration KeyError whenever the trusted
flag is falsy and `user` or `password` is absent or falsy; and with the
trusted flag truthy it constructs the trusted adapter with no user or
password required. -/
theorem C6_sqlserver_auth (kwargs : Bag)
    (hs : Bag.contains kwargs "server" = true)
    (hd : Bag.contains kwargs "database" = true) :
    (pyTruthy (Bag.get kwargs "trusted_connection" (.vbool false)) = false →
      (pyTruthy (Bag.get kwargs "user" .vnone) = false ∨
        pyTruthy (Bag.get kwargs "password" .vnone) = false) →
      get_connector "sqlserver" kwargs =
        .error (.keyError "Para SQL Server sin 'trusted_connection' se requieren 'user' y 'password'.")) ∧
    (pyTruthy (Bag.get kwargs "trusted_connection" (.vbool false)) = true →
      get_connector "sqlserver" kwargs =
        .ok (.sqlserver (Bag.get kwargs "server" .vnone) (Bag.get kwargs "database" .vnone)
          .vnone .vnone
          (Bag.get kwargs "driver" (.vstr "ODBC Driver 17 for SQL Server")) true)) := by
  have hneed := need_ok kwargs ["server", "database"] (by
    intro n hn
    simp at hn
    rcases hn with rfl | rfl
    · exact hs
    · exact hd)
  have hlow : pyLower "sqlserver" = "sqlserver" := by decide
  constructor
  · intro ht hu
    unfold get_connector
    rw [hlow]
    unfold dispatch
    rw [if_neg (by decide : ¬("sqlserver" = "sqlite")),
      if_neg (by decide : ¬("sqlserver" = "postgres")),
      if_neg (by decide : ¬("sqlserver" = "mysql")),
      if_pos (rfl : "sqlserver" = "sqlserver"), hneed]
    rcases hu with hu | hu <;> simp [ht, hu]
  · intro ht
    unfold get_connector
    rw [hlow]
    unfold dispatch
    rw [if_neg (by decide : ¬("sqlserver" = "sqlite")),
      if_neg (by decide : ¬("sqlserver" = "postgres")),
      if_neg (by decide : ¬("sqlserver" = "mysql")),
      if_pos (rfl : "sqlserver" = "sqlserver"), hneed]
    simp [ht]

/-- Witness for C6 at the spec's scenario: `trusted_connection` absent
(defaulting to false) and no user/password is refused at factory level. -/
theorem C6_sqlserver_auth_witness :
    get_connector "sqlserver" [("server", Val.vstr "s"), ("database", Val.vstr "db")] =
      .error (.keyError "Para SQL Server sin 'trusted_connection' se requieren 'user' y 'password'.") :=
  (C6_sqlserver_auth [("server", Val.vstr "s"), ("database", Val.vstr "db")]
    (by decide) (by decide)).1 (by decide) (Or.inl (by decide))

/-! Claim C7 helper lemmas. -/

theorem need_error_shape (kwargs : Bag) (names : List String) (e : PyErr)
    (h : _need kwargs names = .error e) : ∃ m, e = .keyError m := by
  unfold _need at h
  split at h
  · simp at h
  · exact ⟨_, (Except.error.inj h).symm⟩

theorem pyInt_error_shape (v : Val) (e : PyErr) (h : pyInt v = .error e) :
    (∃ s, e = .valueError ("invalid literal for int() with base 10: " ++ s)) ∨
    (∃ m, e = .typeError m) := by
  cases v with
  | vint n => simp [pyInt] at h
  | vbool b => simp [pyInt] at h
  | vstr s =>
    simp only [pyInt] at h
    cases hts : s.toInt? with
    | some n =>
      rw [hts] at h
      simp at h
    | none =>
      rw [hts] at h
      exact Or.inl ⟨s, (Except.error.inj h).symm⟩
  | vnone => exact Or.inr ⟨_, (Except.error.inj h).symm⟩

theorem dispatch_ok_iff (o o' e : String) (kwargs : Bag) (a : Adapter) :
    dispatch o e kwargs = .ok a ↔ dispatch o' e kwargs = .ok a := by
  unfold dispatch
  split_ifs <;> exact Iff.rfl

theorem dispatch_unknown (o e : String) (kwargs : Bag) (hmem : e ∉ knownEngines) :
    dispatch o e kwargs = .error (.valueError ("Motor no soportado: " ++ o)) := by
  simp only [knownEngines, List.mem_cons, not_or] at hmem
  obtain ⟨h1, h2, h3, h4, h5, h6, h7, -⟩ := hmem
  unfold dispatch
  rw [if_neg h1, if_neg h2, if_neg h3, if_neg h4, if_neg h5, if_neg h6, if_neg h7]

theorem dispatch_known_shape (o e : String) (kwargs : Bag) (hmem : e ∈ knownEngines) :
    (∃ a, dispatch o e kwargs = .ok a) ∨
    (∃ m, dispatch o e kwargs = .error (.keyError m)) ∨
    (∃ s, dispatch o e kwargs =
      .error (.valueError ("invalid literal for int() with base 10: " ++ s))) ∨
    (∃ m, dispatch o e kwargs = .error (.typeError m)) := by
  have hk : e = "sqlite" ∨ e = "postgres" ∨ e = "mysql" ∨ e = "sqlserver" ∨
      e = "oracle" ∨ e = "snowflake" ∨ e = "redshift" := by
    simpa [knownEngines] using hmem
  rcases hk with rfl | rfl | rfl | rfl | rfl | rfl | rfl
  · unfold dispatch
    rw [if_pos (rfl : "sqlite" = "sqlite")]
    cases hn : _need kwargs ["path"] with
    | error e1 =>
      obtain ⟨m, rfl⟩ := need_error_shape _ _ _ hn
      exact Or.inr (Or.inl ⟨m, rfl⟩)
    | ok vals =>
      cases hpi : pyInt (Bag.get kwargs "timeout" (Val.vint 5)) with
      | error e2 =>
        rcases pyInt_error_shape _ _ hpi with ⟨s, rfl⟩ | ⟨m, rfl⟩
        · exact Or.inr (Or.inr (Or.inl ⟨s, rfl⟩))
        · exact Or.inr (Or.inr (Or.inr ⟨m, rfl⟩))
      | ok z =>
        exact Or.inl ⟨_, rfl⟩
  · unfold dispatch
    rw [if_neg (by decide : ¬("postgres" = "sqlite")),
      if_pos (rfl : "postgres" = "postgres")]
    cases hn : _need kwargs ["host", "dbname", "user", "password"] with
    | error e1 =>
      obtain ⟨m, rfl⟩ := need_error_shape _ _ _ hn
      exact Or.inr (Or.inl ⟨m, rfl⟩)
    | ok vals =>
      cases hpi : pyInt (Bag.get kwargs "port" (Val.vint 5432)) with
      | error e2 =>
        rcases pyInt_error_shape _ _ hpi with ⟨s, rfl⟩ | ⟨m, rfl⟩
        · exact Or.inr (Or.inr (Or.inl ⟨s, rfl⟩))
        · exact Or.inr (Or.inr (Or.inr ⟨m, rfl⟩))
      | ok z =>
        exact Or.inl ⟨_, rfl⟩
  · unfold dispatch
    rw [if_neg (by decide : ¬("mysql" = "sqlite")),
      if_neg (by decide : ¬("mysql" = "postgres")),
      if_pos (rfl : "mysql" = "mysql")]
    cases hn : _need kwargs ["host", "db", "user", "password"] with
    | error e1 =>
      obtain ⟨m, rfl⟩ := need_error_shape _ _ _ hn
      exact Or.inr (Or.inl ⟨m, rfl⟩)
    | ok vals =>
      cases hpi : pyInt (Bag.get kwargs "port" (Val.vint 3306)) with
      | error e2 =>
        rcases pyInt_error_shape _ _ hpi with ⟨s, rfl⟩ | ⟨m, rfl⟩
        · exact Or.inr (Or.inr (Or.inl ⟨s, rfl⟩))
        · exact Or.inr (Or.inr (Or.inr ⟨m, rfl⟩))
      | ok z =>
        exact Or.inl ⟨_, rfl⟩
  · unfold dispatch
    rw [if_neg (by decide : ¬("sqlserver" = "sqlite")),
      if_neg (by decide : ¬("sqlserver" = "postgres")),
      if_neg (by decide : ¬("sqlserver" = "mysql")),
      if_pos (rfl : "sqlserver" = "sqlserver")]
    cases hn : _need kwargs ["server", "database"] with
    | error e1 =>
      obtain ⟨m, rfl⟩ := need_error_shape _ _ _ hn
      exact Or.inr (Or.inl ⟨m, rfl⟩)
    | ok vals =>
      by_cases htr : pyTruthy (Bag.get kwargs "trusted_connection" (Val.vbool false)) = true
      · exact Or.inl ⟨.sqlserver (vals.getD 0 .vnone) (vals.getD 1 .vnone) .vnone .vnone
          (Bag.get kwargs "driver" (.vstr "ODBC Driver 17 for SQL Server")) true,
          by simp only [htr, if_true]⟩
      · have htr2 : pyTruthy (Bag.get kwargs "trusted_connection" (Val.vbool false)) = false :=
          Bool.eq_false_iff.mpr htr
        by_cases hup : (!(pyTruthy (Bag.get kwargs "user" Val.vnone) &&
            pyTruthy (Bag.get kwargs "password" Val.vnone))) = true
        · exact Or.inr (Or.inl
            ⟨"Para SQL Server sin 'trusted_connection' se requieren 'user' y 'password'.",
              by simp only [htr2, hup, if_true, Bool.false_eq_true, if_false]⟩)
        · have hup2 : (!(pyTruthy (Bag.get kwargs "user" Val.vnone) &&
              pyTruthy (Bag.get kwargs "password" Val.vnone))) = false :=
            Bool.eq_false_iff.mpr hup
          exact Or.inl ⟨.sqlserver (vals.getD 0 .vnone) (vals.getD 1 .vnone)
            (Bag.get kwargs "user" .vnone) (Bag.get kwargs "password" .vnone)
            (Bag.get kwargs "driver" (.vstr "ODBC Driver 17 for SQL Server")) false,
            by simp only [htr2, hup2, Bool.false_eq_true, if_false]⟩
  · unfold dispatch
    rw [if_neg (by decide : ¬("oracle" = "sqlite")),
      if_neg (by decide : ¬("oracle" = "postgres")),
      if_neg (by decide : ¬("oracle" = "mysql")),
      if_neg (by decide : ¬("oracle" = "sqlserver")),
      if_pos (rfl : "oracle" = "oracle")]
    cases hn : _need kwargs ["host", "service_name", "user", "password"] with
    | error e1 =>
      obtain ⟨m, rfl⟩ := need_error_shape _ _ _ hn
      exact Or.inr (Or.inl ⟨m, rfl⟩)
    | ok vals =>
      cases hpi : pyInt (Bag.get kwargs "port" (Val.vint 1521)) with
      | error e2 =>
        rcases pyInt_error_shape _ _ hpi with ⟨s, rfl⟩ | ⟨m, rfl⟩
        · exact Or.inr (Or.inr (Or.inl ⟨s, rfl⟩))
        · exact Or.inr (Or.inr (Or.inr ⟨m, rfl⟩))
      | ok z =>
        exact Or.inl ⟨_, rfl⟩
  · unfold dispatch
    rw [if_neg (by decide : ¬("snowflake" = "sqlite")),
      if_neg (by decide : ¬("snowflake" = "postgres")),
      if_neg (by decide : ¬("snowflake" = "mysql")),
      if_neg (by decide : ¬("snowflake" = "sqlserver")),
      if_neg (by decide : ¬("snowflake" = "oracle")),
      if_pos (rfl : "snowflake" = "snowflake")]
    cases hn : _need kwargs ["account", "user", "password", "warehouse", "database", "schema"] with
    | error e1 =>
      obtain ⟨m, rfl⟩ := need_error_shape _ _ _ hn
      exact Or.inr (Or.inl ⟨m, rfl⟩)
    | ok vals =>
      exact Or.inl ⟨_, rfl⟩
  · unfold dispatch
    rw [if_neg (by decide : ¬("redshift" = "sqlite")),
      if_neg (by decide : ¬("redshift" = "postgres")),
      if_neg (by decide : ¬("redshift" = "mysql")),
      if_neg (by decide : ¬("redshift" = "sqlserver")),
      if_neg (by decide : ¬("redshift" = "oracle")),
      if_neg (by decide : ¬("redshift" = "snowflake")),
      if_pos (rfl : "redshift" = "redshift")]
    cases hn : _need kwargs ["host", "dbname", "user", "password"] with
    | error e1 =>
      obtain ⟨m, rfl⟩ := need_error_shape _ _ _ hn
      exact Or.inr (Or.inl ⟨m, rfl⟩)
    | ok vals =>
      cases hpi : pyInt (Bag.get kwargs "port" (Val.vint 5439)) with
      | error e2 =>
        rcases pyInt_error_shape _ _ hpi with ⟨s, rfl⟩ | ⟨m, rfl⟩
        · exact Or.inr (Or.inr (Or.inl ⟨s, rfl⟩))
        · exact Or.inr (Or.inr (Or.inr ⟨m, rfl⟩))
      | ok z =>
        exact Or.inl ⟨_, rfl⟩

/-- Claim C7, confirmed: the factory lowers the tag before dispatching, so a
tag and its lowercase form construct the same adapter (whenever one returns
an adapter, the other returns the same adapter); and the call returns the
unsupported-engine ValueError (whose message carries the original tag)
exactly when the lowercased tag is none of the seven known engine names. -/
theorem C7_case_insensitive_dispatch (engine : String) (kwargs : Bag) :
    (∀ a : Adapter, get_connector engine kwargs = .ok a ↔
      get_connector (pyLower engine) kwargs = .ok a) ∧
    (get_connector engine kwargs =
        .error (.valueError ("Motor no soportado: " ++ engine)) ↔
      pyLower engine ∉ knownEngines) := by
  constructor
  · intro a
    unfold get_connector
    rw [pyLower_idem]
    exact dispatch_ok_iff engine (pyLower engine) (pyLower engine) kwargs a
  · constructor
    · intro hres
      by_contra hmem
      unfold get_connector at hres
      rcases dispatch_known_shape engine (pyLower engine) kwargs hmem with
        ⟨a, ha⟩ | ⟨m, hm⟩ | ⟨s, hs2⟩ | ⟨m, hm⟩
      · rw [ha] at hres
        simp at hres
      · rw [hm] at hres
        simp at hres
      · rw [hs2] at hres
        simp only [Except.error.injEq, PyErr.valueError.injEq] at hres
        exact intMsg_ne_unsupported s engine hres
      · rw [hm] at hres
        simp at hres
    · intro hmem
      unfold get_connector
      exact dispatch_unknown engine (pyLower engine) kwargs hmem

end SqlConn
